import Mathlib

/-
  Verification development for the GSS 2018 dashboard (src/app.py).

  The program is a single-module Dash application: it loads a CSV of survey
  responses, selects and renames a subset of columns, computes five static
  figures, renders a layout with two dropdown controls, and registers one
  callback (update_graph) that recomputes a grouped bar chart.

  Shallow embedding conventions:
  - a cell is `Option Val` (`none` models a pandas missing value / NaN);
  - a row is an association list from column names to cells; a data frame
    carries its column-name list and its rows;
  - machine floats of the source are modelled as rationals;
  - fallible steps (KeyError on a missing column, ValueError on a failed
    float conversion, the NameError raised by line 138 of app.py) are
    modelled with `Except String`;
  - plotly figure objects are modelled by the data frame they are built
    from plus the axis/colour/facet column names passed to the library
    call; purely cosmetic settings (labels dicts, colours, layout styling)
    are not part of the model.
-/

namespace GSSDash

/-- A cell value: survey answers and region/sex labels are strings, numeric
columns (age, income, prestige scores, education years, ...) are rationals. -/
inductive Val where
  | str : String → Val
  | num : ℚ → Val
deriving DecidableEq

/-- A cell of the table: `none` models a pandas missing value (NaN). -/
abbrev Cell := Option Val

/-- A row: an association list from column names to cells. -/
abbrev Row := List (String × Cell)

/-- A data frame: the list of column names and the list of rows. -/
structure DFrame where
  cols : List String
  rows : List Row
deriving DecidableEq

/-- Reading the cell of a row at a column name; an absent key reads as NaN. -/
def getCell (r : Row) (c : String) : Cell :=
  match r with
  | [] => none
  | (k, v) :: rest => if k = c then v else getCell rest c

/-- Whether an `Except` computation succeeded. -/
def isOkE {ε α : Type} : Except ε α → Bool
  | .ok _ => true
  | .error _ => false

/-- The string CAN'T CHOOSE (apostrophe built from its character code). -/
def cant_choose : String := "CAN" ++ String.mk [Char.ofNat 39] ++ "T CHOOSE"

/-- NA markers passed to pd.read_csv via na_values (app.py lines 11-13). -/
def na_values : List String :=
  ["IAP", "IAP,DK,NA,uncodeable", "NOT SURE", "DK",
   "IAP, DK, NA, uncodeable", ".a", cant_choose]

/-- Digit-string to natural number (the empty list maps to 0). -/
def digitsFold (cs : List Char) : ℕ :=
  cs.foldl (fun n c => n * 10 + (c.toNat - 48)) 0

/-- Split a character list at its first dot: the part before it and, when
a dot occurs, the part after it. -/
def splitDot : List Char → List Char × Option (List Char)
  | [] => ([], none)
  | c :: cs =>
      if c = '.' then ([], some cs)
      else
        let r := splitDot cs
        (c :: r.1, r.2)

/-- Parse an unsigned decimal literal (optional fractional part). -/
def parseFloatChars (cs : List Char) : Option ℚ :=
  let (ip, rest) := splitDot cs
  match rest with
  | none =>
      if ip ≠ [] ∧ ip.all Char.isDigit then some (digitsFold ip : ℚ) else none
  | some fp =>
      if (ip ≠ [] ∨ fp ≠ []) ∧ ip.all Char.isDigit ∧ fp.all Char.isDigit then
        some ((digitsFold ip : ℚ) + (digitsFold fp : ℚ) / (10 : ℚ) ^ fp.length)
      else none

/-- Parse a decimal literal (optional sign, optional fractional part) as a
rational, as float() / pandas numeric inference would. -/
def parseFloat? (s : String) : Option ℚ :=
  match s.toList with
  | '-' :: cs => (parseFloatChars cs).map (fun q => -q)
  | cs => parseFloatChars cs

/-- Reading one CSV field: an NA marker becomes a missing value, a numeric
literal becomes a rational, anything else stays a string (pd.read_csv with
the na_values list of app.py lines 11-13). -/
def read_cell (s : String) : Cell :=
  if s ∈ na_values then none
  else
    match parseFloat? s with
    | some q => some (.num q)
    | none => some (.str s)

/-- Reading the whole CSV: a header line plus a grid of fields
(pd.read_csv, app.py line 11). -/
def read_csv (header : List String) (grid : List (List String)) : DFrame :=
  ⟨header, grid.map (fun cells => header.zip (cells.map read_cell))⟩

/-- The columns selected from the raw survey table (app.py lines 14-16). -/
def mycols : List String :=
  ["id", "wtss", "sex", "educ", "region", "age", "coninc",
   "prestg10", "mapres10", "papres10", "sei10", "satjob",
   "fechld", "fefam", "fepol", "fepresch", "meovrwrk"]

/-- The rename mapping passed to DataFrame.rename (app.py lines 18-24);
fehire and fejobaff appear in the mapping but not among the selected
columns, exactly as in the source. -/
def rename_map : List (String × String) :=
  [("wtss", "weight"), ("educ", "education"), ("coninc", "income"),
   ("prestg10", "job_prestige"), ("mapres10", "mother_job_prestige"),
   ("papres10", "father_job_prestige"), ("sei10", "socioeconomic_index"),
   ("fechld", "relationship"), ("fefam", "male_breadwinner"),
   ("fehire", "hire_women"), ("fejobaff", "preference_hire_women"),
   ("fepol", "men_bettersuited"), ("fepresch", "child_suffer"),
   ("meovrwrk", "men_overwork")]

/-- Renaming one column name per the mapping (names not in the mapping are
kept). -/
def applyRename (c : String) : String := (rename_map.lookup c).getD c

/-- Projection of one row onto the selected columns (gss[mycols]). -/
def select_row (r : Row) : Row := mycols.map (fun c => (c, getCell r c))

/-- gss[mycols] (app.py line 17): KeyError when a selected column is
missing from the frame. -/
def selectColsE (d : DFrame) : Except String DFrame :=
  if ∀ c ∈ mycols, c ∈ d.cols then
    .ok ⟨mycols, d.rows.map select_row⟩
  else .error "KeyError"

/-- Renaming the keys of one row (DataFrame.rename, axis=1). -/
def ren_row (r : Row) : Row := r.map (fun p => (applyRename p.1, p.2))

/-- DataFrame.rename(..., axis=1) (app.py lines 18-24). -/
def rename_frame (d : DFrame) : DFrame :=
  ⟨d.cols.map applyRename, d.rows.map ren_row⟩

/-- gss_clean.age.replace({'89 or older':'89'}) at the cell level
(app.py line 25). -/
def replace89 (c : Cell) : Cell :=
  if c = some (.str "89 or older") then some (.str "89") else c

/-- Applying replace89 to the age entry of a row. -/
def rep_row (r : Row) : Row :=
  r.map (fun p => if p.1 = "age" then (p.1, replace89 p.2) else p)

/-- The replace step on the whole frame (app.py line 25). -/
def replace_frame (d : DFrame) : DFrame := ⟨d.cols, d.rows.map rep_row⟩

/-- astype('float') on one cell: NaN stays NaN, a number stays itself, a
string is parsed, and an unparseable string is a ValueError. -/
def astypeFloatCell (c : Cell) : Except String Cell :=
  match c with
  | none => .ok none
  | some (.num q) => .ok (some (.num q))
  | some (.str s) =>
      match parseFloat? s with
      | some q => .ok (some (.num q))
      | none => .error "ValueError"

/-- The value of astype('float') on a cell when it succeeds (NaN when it
would have raised; only used beneath a success check). -/
def age_conv (c : Cell) : Cell :=
  match astypeFloatCell c with
  | .ok d => d
  | .error _ => none

/-- gss_clean.age = gss_clean.age.astype('float') (app.py line 26): the
whole step raises ValueError when any age cell fails to parse, otherwise
every age cell is converted. -/
def astype_age_frame (d : DFrame) : Except String DFrame :=
  if ∀ r ∈ d.rows, isOkE (astypeFloatCell (getCell r "age")) = true then
    .ok ⟨d.cols, d.rows.map (fun r =>
      r.map (fun p => if p.1 = "age" then (p.1, age_conv p.2) else p))⟩
  else .error "ValueError"

/-- The whole cleaning pipeline, app.py lines 14-26: select the columns,
rename them, replace the age label, convert age to float. -/
def cleanE (raw : DFrame) : Except String DFrame :=
  match selectColsE raw with
  | .error e => .error e
  | .ok d0 =>
      let d1 := rename_frame d0
      let d2 := replace_frame d1
      astype_age_frame d2

/-- The column names of the cleaned table, in order. -/
def cleaned_cols : List String :=
  ["id", "weight", "sex", "education", "region", "age", "income",
   "job_prestige", "mother_job_prestige", "father_job_prestige",
   "socioeconomic_index", "satjob", "relationship", "male_breadwinner",
   "men_bettersuited", "child_suffer", "men_overwork"]

/-- The happy-path effect of cleaning on one raw row. -/
def clean_row (r : Row) : Row :=
  (rep_row (ren_row (select_row r))).map
    (fun p => if p.1 = "age" then (p.1, age_conv p.2) else p)

lemma cols_renamed : mycols.map applyRename = cleaned_cols := by decide

lemma isOkE_exists {c : Cell} (h : isOkE (astypeFloatCell c) = true) :
    ∃ d, astypeFloatCell c = .ok d := by
  cases hh : astypeFloatCell c with
  | ok d => exact ⟨d, rfl⟩
  | error e => rw [hh] at h; simp [isOkE] at h

/-- Closed form of the cleaning pipeline under its success conditions. -/
lemma cleanE_eq (raw : DFrame)
    (h1 : ∀ c ∈ mycols, c ∈ raw.cols)
    (h2 : ∀ r ∈ raw.rows, isOkE (astypeFloatCell (replace89 (getCell r "age"))) = true) :
    cleanE raw = .ok ⟨cleaned_cols, raw.rows.map clean_row⟩ := by
  rw [cleanE, selectColsE, if_pos h1]
  have hage : ∀ r : Row, getCell (rep_row (ren_row (select_row r))) "age" =
      replace89 (getCell r "age") := fun r => rfl
  simp only [rename_frame, replace_frame, List.map_map]
  have hcond : ∀ r ∈ List.map (rep_row ∘ ren_row ∘ select_row) raw.rows,
      isOkE (astypeFloatCell (getCell r "age")) = true := by
    intro r hr
    simp only [List.mem_map] at hr
    obtain ⟨r0, hr0, rfl⟩ := hr
    have hc : (rep_row ∘ ren_row ∘ select_row) r0 = rep_row (ren_row (select_row r0)) := rfl
    rw [hc, hage]
    exact h2 r0 hr0
  rw [astype_age_frame, if_pos hcond]
  simp only [List.map_map]
  have hrows : List.map
      ((fun r => List.map (fun p => if p.1 = "age" then (p.1, age_conv p.2) else p) r) ∘
        rep_row ∘ ren_row ∘ select_row) raw.rows = List.map clean_row raw.rows :=
    congrFun (congrArg List.map (funext fun r => rfl)) raw.rows
  rw [cols_renamed, hrows]

/-- Projection of a frame onto a sublist of its columns (gss_clean[[...]]);
the figure-building code only projects onto columns of the cleaned table,
so no KeyError path is modelled here. -/
def selectP (d : DFrame) (cs : List String) : DFrame :=
  ⟨cs, d.rows.map (fun r => cs.map (fun c => (c, getCell r c)))⟩

/-- dropna(subset=cs): keep the rows whose cells at all the columns of cs
are present. -/
def dropna_subset (rows : List Row) (cs : List String) : List Row :=
  rows.filter (fun r => cs.all (fun c => (getCell r c).isSome))

/-- The distinct non-missing values of a column, as pandas groupby uses
them for group keys (rows whose key is NaN are dropped). -/
def group_keys (rows : List Row) (c : String) : List Val :=
  (rows.filterMap (fun r => getCell r c)).dedup

/-- The numeric values present in a column (NaN skipped, as pandas mean
skips missing values). -/
def colNums (rows : List Row) (c : String) : List ℚ :=
  rows.filterMap (fun r =>
    match getCell r c with
    | some (.num q) => some q
    | _ => none)

/-- Column mean, NaN when the column has no numeric values. -/
def colMean (rows : List Row) (c : String) : Cell :=
  let vs := colNums rows c
  if vs.length = 0 then none else some (.num (vs.sum / (vs.length : ℚ)))

/-- Rounding a rational to 2 decimal places (DataFrame.round(2)). -/
def round2 (q : ℚ) : ℚ := ((round (q * 100) : ℤ) : ℚ) / 100

/-- round(2) on a cell: numbers are rounded, anything else is unchanged. -/
def round2Cell : Cell → Cell
  | some (.num q) => some (.num (round2 q))
  | c => c

/-- The rows of a table having a given sex value. -/
def sex_group (g : DFrame) (s : Val) : List Row :=
  g.rows.filter (fun r => decide (getCell r "sex" = some s))

/-- One row of the summary table for one sex value: the group means of the
four aggregated columns, rounded to 2 decimals, with the display column
names produced by the rename of app.py lines 46-49. -/
def sum_row (g : DFrame) (s : Val) : Row :=
  [("Sex", some s),
   ("Mean Income", round2Cell (colMean (sex_group g s) "income")),
   ("Mean Job Prestige", round2Cell (colMean (sex_group g s) "job_prestige")),
   ("Mean Socioeconomic Index", round2Cell (colMean (sex_group g s) "socioeconomic_index")),
   ("Mean Education (Years)", round2Cell (colMean (sex_group g s) "education"))]

/-- summary_df (app.py lines 42-49): groupby('sex'), mean of the four
columns, round(2), reset_index, rename to the display names. -/
def summary_df (g : DFrame) : DFrame :=
  ⟨["Sex", "Mean Income", "Mean Job Prestige", "Mean Socioeconomic Index",
    "Mean Education (Years)"],
   (group_keys g.rows "sex").map (sum_row g)⟩

/-- pd.cut with explicit right-closed bin edges and labels: the label of
the first interval (edges i, edges i+1] containing v, NaN when v lies in
no interval. -/
def cut_val (edges : List ℚ) (labels : List String) (v : ℚ) : Option String :=
  match edges, labels with
  | e1 :: e2 :: es, l :: ls =>
      if e1 < v ∧ v ≤ e2 then some l else cut_val (e2 :: es) ls v
  | _, _ => none

/-- The education bin edges of update_graph (app.py line 119). -/
def education_bins : List ℚ := [0, 8, 12, 16, 25]

/-- The education bin labels of update_graph (app.py line 120). -/
def education_labels : List String :=
  ["<9 years", "9-12 years", "13-16 years", ">16 years"]

/-- pd.cut applied to an education cell: NaN stays NaN, a number gets its
bin label or NaN when it falls in no bin. -/
def cutEduCell (c : Cell) : Cell :=
  match c with
  | some (.num v) => (cut_val education_bins education_labels v).map Val.str
  | _ => none

/-- df['education_binned'] = pd.cut(df['education'], ...) at the row
level: the new column is added at the front of the association list, so
it shadows any same-named key, as assignment by name does. -/
def bin_education_row (r : Row) : Row :=
  ("education_binned", cutEduCell (getCell r "education")) :: r

/-- The frame the callback plots from: a copy of the cleaned table, with
the education_binned column added exactly when color_col is education
(app.py lines 117-124). -/
def bin_frame (g : DFrame) (c : String) : DFrame :=
  if c = "education" then
    ⟨g.cols ++ ["education_binned"], g.rows.map bin_education_row⟩
  else g

/-- color_col_plot (app.py lines 118-124): the column actually used for
the colour grouping. -/
def color_col_plot (c : String) : String :=
  if c = "education" then "education_binned" else c

/-- df_plot (app.py line 126): drop the rows missing in the x-axis column
or the (possibly binned) colour column. -/
def df_plot (g : DFrame) (x c : String) : List Row :=
  dropna_subset (bin_frame g c).rows [x, color_col_plot c]

/-- groupby([c1, c2]).size() (app.py line 127): one entry per distinct
(c1, c2) pair of the rows, with the number of rows carrying that pair. -/
def groupby2_size (rows : List Row) (c1 c2 : String) : List (Cell × Cell × ℕ) :=
  ((rows.map (fun r => (getCell r c1, getCell r c2))).dedup).map
    (fun k => (k.1, k.2,
      rows.countP (fun r => decide (getCell r c1 = k.1 ∧ getCell r c2 = k.2))))

/-- reset_index(name='count') on the grouped sizes: the data frame rows
behind the bar chart. -/
def grouped_to_rows (x cp : String) (l : List (Cell × Cell × ℕ)) : List Row :=
  l.map (fun t => [(x, t.1), (cp, t.2.1), ("count", some (.num (t.2.2 : ℚ)))])

/-- A plotly figure, modelled by its kind, the data frame it was built
from, and the column names bound to its axes / colour / facet. -/
inductive Figure where
  | table : DFrame → Figure
  | scatter : DFrame → String → String → String → Figure
  | box : DFrame → String → String → String → Option String → Figure
  | bar : DFrame → String → String → String → Figure
deriving DecidableEq

/-- update_graph (app.py lines 116-135): copy the table, bin education
when colouring by education, drop incomplete rows, group by the two
columns, count, and build the grouped bar chart. Accessing a missing
column raises KeyError. -/
def update_graph (g : DFrame) (x c : String) : Except String Figure :=
  if c = "education" ∧ "education" ∉ g.cols then .error "KeyError"
  else if x ∈ (bin_frame g c).cols ∧ color_col_plot c ∈ (bin_frame g c).cols then
    .ok (Figure.bar
      ⟨[x, color_col_plot c, "count"],
       grouped_to_rows x (color_col_plot c)
         (groupby2_size (df_plot g x c) x (color_col_plot c))⟩
      x "count" (color_col_plot c))
  else .error "KeyError"

/-- scatter_data (app.py line 53): the five-column projection, rows with
any missing cell dropped. -/
def scatter_data (g : DFrame) : DFrame :=
  let base := selectP g ["job_prestige", "income", "sex", "education", "socioeconomic_index"]
  ⟨base.cols, dropna_subset base.rows base.cols⟩

/-- box_data (app.py line 59): the three-column projection, rows with any
missing cell dropped. -/
def box_data (g : DFrame) : DFrame :=
  let base := selectP g ["income", "job_prestige", "sex"]
  ⟨base.cols, dropna_subset base.rows base.cols⟩

/-- Minimum of a list of rationals. -/
def minQ? : List ℚ → Option ℚ
  | [] => none
  | x :: xs =>
      match minQ? xs with
      | none => some x
      | some m => some (min x m)

/-- Maximum of a list of rationals. -/
def maxQ? : List ℚ → Option ℚ
  | [] => none
  | x :: xs =>
      match maxQ? xs with
      | none => some x
      | some m => some (max x m)

/-- Names standing for the six interval categories produced by
pd.cut(..., bins=6); the interval endpoints are not part of the model. -/
def cut6_labels : List String := ["q1", "q2", "q3", "q4", "q5", "q6"]

/-- The edges of pd.cut(col, bins=6): seven equally spaced edges from the
column minimum to the column maximum, the leftmost lowered by 0.1% of the
range so the minimum falls in the first right-closed interval. -/
def cut6_edges (mn mx : ℚ) : List ℚ :=
  [mn - (mx - mn) / 1000, mn + (mx - mn) / 6, mn + 2 * (mx - mn) / 6,
   mn + 3 * (mx - mn) / 6, mn + 4 * (mx - mn) / 6, mn + 5 * (mx - mn) / 6, mx]

/-- pd.cut(col, bins=6) on one cell given the column minimum and maximum. -/
def cut6Cell (mn mx : ℚ) (c : Cell) : Cell :=
  match c with
  | some (.num v) => (cut_val (cut6_edges mn mx) cut6_labels v).map Val.str
  | _ => none

/-- facet_df (app.py lines 66-68): project onto income, sex and
job_prestige, add prestige_category = pd.cut(job_prestige, bins=6), then
dropna; the degenerate frame with no numeric job_prestige value (where
pandas would adjust the edges specially) yields no surviving row. -/
def facet_data (g : DFrame) : DFrame :=
  let base := selectP g ["income", "sex", "job_prestige"]
  match minQ? (colNums base.rows "job_prestige"),
        maxQ? (colNums base.rows "job_prestige") with
  | some mn, some mx =>
      let cols := base.cols ++ ["prestige_category"]
      let rows := base.rows.map (fun r =>
        ("prestige_category", cut6Cell mn mx (getCell r "job_prestige")) :: r)
      ⟨cols, dropna_subset rows cols⟩
  | _, _ => ⟨base.cols ++ ["prestige_category"], []⟩

/-- The five static figures, in the order app.py computes them
(lines 41-72): the metrics table, the scatter plot, the two box plots,
and the faceted box plot. -/
def static_figures (g : DFrame) : List Figure :=
  [Figure.table (summary_df g),
   Figure.scatter (scatter_data g) "job_prestige" "income" "sex",
   Figure.box (box_data g) "sex" "income" "sex" none,
   Figure.box (box_data g) "sex" "job_prestige" "sex" none,
   Figure.box (facet_data g) "sex" "income" "sex" (some "prestige_category")]

/-- The x-axis dropdown values (app.py line 75). -/
def xaxis_options : List String :=
  ["satjob", "relationship", "male_breadwinner", "men_bettersuited",
   "child_suffer", "men_overwork"]

/-- The colour dropdown values (app.py line 76). -/
def color_options : List String := ["sex", "region", "education"]

/-- str.replace('_', ' ') on a column name. -/
def underscore_to_space (s : String) : String :=
  String.mk (s.toList.map (fun ch => if ch = '_' then ' ' else ch))

/-- Uppercase the first letter of each space-separated word (the flag is
true at the start of a word). -/
def capitalize_words : Bool → List Char → List Char
  | _, [] => []
  | atStart, ch :: rest =>
      if ch = ' ' then ch :: capitalize_words true rest
      else (if atStart then ch.toUpper else ch) :: capitalize_words false rest

/-- str.title() restricted to the lowercase inputs it is applied to:
capitalise the first letter of each space-separated word. -/
def py_title (s : String) : String :=
  String.mk (capitalize_words true s.toList)

/-- The markdown introduction (app.py lines 31-39); the prose is abridged
since only its presence in the layout matters to the model. -/
def markdown_text : String :=
  "### The Gender Wage Gap / About the General Social Survey (GSS)"

/-- A layout component. The html.Div nesting of app.py lines 86-109 is
flattened to a list in document order; only the content relevant to the
claims (headings, the markdown block, the two dropdowns, the graphs and
whether each graph is static or callback-driven) is modelled. -/
inductive Component where
  | heading : String → Component
  | mdown : String → Component
  | labelC : String → Component
  | hrule : Component
  | dropdown : String → List (String × String) → String → Component
  | graph : Option String → Option Figure → Component
deriving DecidableEq

/-- The dashboard layout (app.py lines 86-109), flattened in document
order: the title, the control column (markdown, two dropdowns with their
option lists and initial values), and the figure column (the static
graphs and the one callback-driven graph). -/
def app_layout (g : DFrame) : List Component :=
  [Component.heading "GSS 2018: Gender, Occupation, and Income",
   Component.heading "Dashboard Context & Controls",
   Component.mdown markdown_text,
   Component.hrule,
   Component.heading "Bar Plot Controls",
   Component.labelC "Select a Survey Question:",
   Component.dropdown "xaxis-dropdown"
     (xaxis_options.map (fun i => (py_title (underscore_to_space i), i)))
     "male_breadwinner",
   Component.labelC "Group By:",
   Component.dropdown "color-dropdown"
     (color_options.map (fun i => (py_title i, i)))
     "sex",
   Component.heading "Key Metrics by Gender",
   Component.graph none (some (Figure.table (summary_df g))),
   Component.heading "Attitudes on Social Issues",
   Component.graph (some "interactive-bar-graph") none,
   Component.heading "Income vs. Job Prestige",
   Component.graph none (some (Figure.scatter (scatter_data g) "job_prestige" "income" "sex")),
   Component.heading "Income Distribution",
   Component.graph none (some (Figure.box (box_data g) "sex" "income" "sex" none)),
   Component.heading "Job Prestige Distribution",
   Component.graph none (some (Figure.box (box_data g) "sex" "job_prestige" "sex" none)),
   Component.heading "Income by Job Prestige Level",
   Component.graph none (some (Figure.box (facet_data g) "sex" "income" "sex" (some "prestige_category")))]

/-- The dropdown controls of a layout, in order: id, options
(label, value), initial value. -/
def dropdowns_of (cs : List Component) : List (String × List (String × String) × String) :=
  cs.filterMap (fun c =>
    match c with
    | Component.dropdown i o v => some (i, o, v)
    | _ => none)

/-- The ids of the callback-driven (figure-less) graphs of a layout. -/
def interactive_ids (cs : List Component) : List String :=
  cs.filterMap (fun c =>
    match c with
    | Component.graph (some i) none => some i
    | _ => none)

/-- The figures of the static graphs of a layout, in order. -/
def static_graph_figs (cs : List Component) : List Figure :=
  cs.filterMap (fun c =>
    match c with
    | Component.graph _ (some f) => some f
    | _ => none)

/-- A Dash callback registration: the output component and property, the
input (component, property) pairs, and the handler. -/
structure Callback where
  outputId : String
  outputProp : String
  inputs : List (String × String)
  handler : DFrame → String → String → Except String Figure

/-- The one callback of the app (app.py lines 112-115): Output
('interactive-bar-graph', 'figure') from the two dropdown values, handled
by update_graph. -/
def the_callback : Callback :=
  ⟨"interactive-bar-graph", "figure",
   [("xaxis-dropdown", "value"), ("color-dropdown", "value")],
   update_graph⟩

/-- The loaded application: the cleaned table held in process memory, the
static figures, the rendered layout and the registered callback. -/
structure App where
  gss_clean : DFrame
  figures : List Figure
  layout : List Component
  callback : Callback

/-- The names bound in the module namespace once lines 1-135 of app.py
have executed (imports, data, figures, option lists, app, server and the
callback function). -/
def module_names : List String :=
  ["np", "pd", "dash", "dcc", "html", "Input", "Output", "px", "ff",
   "gss", "mycols", "gss_clean", "markdown_text", "summary_df",
   "table_fig", "scatter_data", "scatter_fig", "box_data",
   "income_boxplot_fig", "prestige_boxplot_fig", "facet_df", "facet_fig",
   "xaxis_options", "color_options", "external_stylesheets", "app",
   "server", "update_graph"]

/-- Executing the module top to bottom (app.py lines 11-138): read the
CSV, clean it, build the figures and the layout, register the callback
(line 83 reads the bound name app), then line 138 reads the name
app_final, which is not bound, so the load raises NameError. -/
def module_load (header : List String) (grid : List (List String)) :
    Except String App :=
  match cleanE (read_csv header grid) with
  | .error e => .error e
  | .ok g =>
      let figs := static_figures g
      let lay := app_layout g
      if "app_final" ∈ module_names then .ok ⟨g, figs, lay, the_callback⟩
      else .error "NameError: name app_final is not defined"

/-- The callback as a transformer of the module state (the gss_clean
global): the body starts from df = gss_clean.copy() and assigns only to
the copy, so the global it leaves behind is the unchanged table. -/
def update_graph_st (g : DFrame) (x c : String) :
    Except String Figure × DFrame :=
  (update_graph g x c, g)

/-- The static figure computations as a reader of the module state: they
only project and aggregate gss_clean. -/
def static_figures_st (g : DFrame) : List Figure × DFrame :=
  (static_figures g, g)

/-- Running a sequence of dropdown-change events against the module
state, collecting each returned figure. -/
def run_callbacks (g : DFrame) : List (String × String) → List (Except String Figure) × DFrame
  | [] => ([], g)
  | p :: rest =>
      let out := update_graph_st g p.1 p.2
      let next := run_callbacks out.2 rest
      (out.1 :: next.1, next.2)

/-- Success form of update_graph when every referenced column exists. -/
lemma update_graph_eq (g : DFrame) (x c : String)
    (hedu : c = "education" → "education" ∈ g.cols)
    (hx : x ∈ (bin_frame g c).cols)
    (hcp : color_col_plot c ∈ (bin_frame g c).cols) :
    update_graph g x c = .ok (Figure.bar
      ⟨[x, color_col_plot c, "count"],
       grouped_to_rows x (color_col_plot c)
         (groupby2_size (df_plot g x c) x (color_col_plot c))⟩
      x "count" (color_col_plot c)) := by
  have hne : ¬(c = "education" ∧ "education" ∉ g.cols) :=
    fun hcon => hcon.2 (hedu hcon.1)
  rw [update_graph, if_neg hne, if_pos ⟨hx, hcp⟩]

/-- C2: the claim says importing the module runs the whole pipeline to
completion, leaving the app ready; in fact, for every CSV input, loading
never succeeds: when cleaning succeeds, line 138 (server =
app_final.server) reads the unbound name app_final and raises NameError,
and otherwise the cleaning error propagates. -/
theorem module_load_always_fails (header : List String) (grid : List (List String)) :
    module_load header grid =
      (match cleanE (read_csv header grid) with
       | .ok _ => .error "NameError: name app_final is not defined"
       | .error e => .error e) := by
  have hnotin : "app_final" ∉ module_names := by decide
  cases h : cleanE (read_csv header grid) with
  | ok g => simp only [module_load, h, if_neg hnotin]
  | error e => simp only [module_load, h]

/-- C3: the cleaned table is never mutated after cleaning: a callback
invocation leaves the gss_clean global exactly as it was (the body works
on df = gss_clean.copy(), including when it adds education_binned), and
the static figure computations read it without writing. -/
theorem gss_clean_not_mutated (g : DFrame) (x c : String) :
    (update_graph_st g x c).2 = g ∧ (static_figures_st g).2 = g :=
  ⟨rfl, rfl⟩

/-- C4: update_graph is stateless and deterministic: after any history of
prior dropdown events, the figure returned for the pair (x, c) is exactly
update_graph of the original cleaned table at (x, c) — the output depends
only on the two inputs and the table, not on invocation history. -/
theorem update_graph_history_independent (g : DFrame)
    (hist : List (String × String)) (x c : String) :
    (run_callbacks g (hist ++ [(x, c)])).1.get? hist.length =
      some (update_graph g x c) := by
  induction hist with
  | nil => rfl
  | cons p rest ih =>
      simpa [run_callbacks, update_graph_st] using ih

/-- C7: the layout has exactly two dropdown controls (the x-axis dropdown
with the six survey-question values, default male_breadwinner, and the
colour dropdown with sex/region/education, default sex) and exactly one
callback-driven graph, the component interactive-bar-graph; the one
registered callback maps the two dropdown values to that component's
figure through update_graph. -/
theorem layout_two_dropdowns_one_interactive (g : DFrame) :
    dropdowns_of (app_layout g) =
      [("xaxis-dropdown",
        [("Satjob", "satjob"), ("Relationship", "relationship"),
         ("Male Breadwinner", "male_breadwinner"),
         ("Men Bettersuited", "men_bettersuited"),
         ("Child Suffer", "child_suffer"), ("Men Overwork", "men_overwork")],
        "male_breadwinner"),
       ("color-dropdown",
        [("Sex", "sex"), ("Region", "region"), ("Education", "education")],
        "sex")] ∧
    interactive_ids (app_layout g) = ["interactive-bar-graph"] ∧
    the_callback.outputId = "interactive-bar-graph" ∧
    the_callback.outputProp = "figure" ∧
    the_callback.inputs = [("xaxis-dropdown", "value"), ("color-dropdown", "value")] ∧
    the_callback.handler = update_graph ∧
    xaxis_options = ["satjob", "relationship", "male_breadwinner",
      "men_bettersuited", "child_suffer", "men_overwork"] ∧
    color_options = ["sex", "region", "education"] :=
  ⟨rfl, rfl, rfl, rfl, rfl, rfl, rfl, rfl⟩

/-- C1: for dropdown values x and c, update_graph returns the bar chart
built from the group-by-size aggregation of the cleaned table, and the
count recorded for each (x-value, colour-value) pair equals the number of
rows of the dropna-filtered frame carrying exactly those two values. -/
theorem update_graph_group_counts (g : DFrame) (x c : String)
    (e : Cell × Cell × ℕ)
    (hx0 : x ∈ xaxis_options) (hc0 : c ∈ color_options)
    (hedu : c = "education" → "education" ∈ g.cols)
    (hx : x ∈ (bin_frame g c).cols)
    (hcp : color_col_plot c ∈ (bin_frame g c).cols)
    (he : e ∈ groupby2_size (df_plot g x c) x (color_col_plot c)) :
    update_graph g x c = .ok (Figure.bar
      ⟨[x, color_col_plot c, "count"],
       grouped_to_rows x (color_col_plot c)
         (groupby2_size (df_plot g x c) x (color_col_plot c))⟩
      x "count" (color_col_plot c)) ∧
    e.2.2 = ((df_plot g x c).filter (fun r =>
      decide (getCell r x = e.1 ∧ getCell r (color_col_plot c) = e.2.1))).length := by
  refine ⟨update_graph_eq g x c hedu hx hcp, ?_⟩
  rw [groupby2_size] at he
  simp only [List.mem_map] at he
  obtain ⟨k, hk, rfl⟩ := he
  exact List.countP_eq_length_filter _ _

/-- A three-row table exercising the interactive bar chart. -/
def wT1 : DFrame :=
  ⟨["male_breadwinner", "sex"],
   [[("male_breadwinner", some (.str "agree")), ("sex", some (.str "male"))],
    [("male_breadwinner", some (.str "agree")), ("sex", some (.str "male"))],
    [("male_breadwinner", some (.str "agree")), ("sex", some (.str "female"))]]⟩

theorem update_graph_group_counts_witness :
    update_graph wT1 "male_breadwinner" "sex" = .ok (Figure.bar
      ⟨["male_breadwinner", "sex", "count"],
       grouped_to_rows "male_breadwinner" "sex"
         (groupby2_size (df_plot wT1 "male_breadwinner" "sex") "male_breadwinner" "sex")⟩
      "male_breadwinner" "count" "sex") ∧
    (2 : ℕ) = ((df_plot wT1 "male_breadwinner" "sex").filter (fun r =>
      decide (getCell r "male_breadwinner" = some (Val.str "agree") ∧
        getCell r "sex" = some (Val.str "male")))).length :=
  update_graph_group_counts wT1 "male_breadwinner" "sex"
    (some (Val.str "agree"), some (Val.str "male"), 2)
    (by decide) (by decide) (by decide) (by decide) (by decide) (by decide)

/-- C5: the metrics table is the group-by-mean aggregation: it has exactly
one row per sex value of the cleaned table, and that row carries the mean
income, job prestige, socioeconomic index and education of the rows with
that sex, rounded to 2 decimal places. -/
theorem summary_table_group_means (g : DFrame) (s : Val) (r : Row)
    (hs : s ∈ group_keys g.rows "sex")
    (hr : r ∈ (summary_df g).rows)
    (hrs : getCell r "Sex" = some s) :
    ((summary_df g).rows.filter
      (fun row => decide (getCell row "Sex" = some s))).length = 1 ∧
    getCell r "Mean Income" = round2Cell (colMean (sex_group g s) "income") ∧
    getCell r "Mean Job Prestige" =
      round2Cell (colMean (sex_group g s) "job_prestige") ∧
    getCell r "Mean Socioeconomic Index" =
      round2Cell (colMean (sex_group g s) "socioeconomic_index") ∧
    getCell r "Mean Education (Years)" =
      round2Cell (colMean (sex_group g s) "education") := by
  have hrows : (summary_df g).rows = (group_keys g.rows "sex").map (sum_row g) := rfl
  constructor
  · have h1 : (summary_df g).rows.filter
        (fun row => decide (getCell row "Sex" = some s)) =
        ((group_keys g.rows "sex").filter (fun k => k == s)).map (sum_row g) := by
      rw [hrows, List.filter_map]
      congr 1
      apply List.filter_congr
      intro k _
      show decide (getCell (sum_row g k) "Sex" = some s) = (k == s)
      have h2 : getCell (sum_row g k) "Sex" = some k := rfl
      rw [h2]
      by_cases hks : k = s
      · subst hks; simp
      · simp [hks]
    rw [h1, List.length_map, ← List.countP_eq_length_filter]
    have h3 : (group_keys g.rows "sex").countP (fun k => k == s) =
        (group_keys g.rows "sex").count s := rfl
    rw [h3]
    exact List.count_eq_one_of_mem (List.nodup_dedup _) hs
  · rw [hrows] at hr
    obtain ⟨k, _, hkr⟩ := List.mem_map.mp hr
    subst hkr
    have hks : k = s := by
      have h2 : getCell (sum_row g k) "Sex" = some k := rfl
      rw [h2] at hrs
      exact Option.some.inj hrs
    subst hks
    exact ⟨rfl, rfl, rfl, rfl⟩

/-- A one-row table exercising the summary aggregation (the numeric
columns are missing, so the group means are NaN). -/
def wT2 : DFrame :=
  ⟨["sex", "income", "job_prestige", "socioeconomic_index", "education"],
   [[("sex", some (.str "male")), ("income", none),
     ("job_prestige", none), ("socioeconomic_index", none),
     ("education", none)]]⟩

/-- The summary row wT2 produces for the sex value male. -/
def wr2 : Row :=
  [("Sex", some (Val.str "male")), ("Mean Income", none),
   ("Mean Job Prestige", none),
   ("Mean Socioeconomic Index", none),
   ("Mean Education (Years)", none)]

theorem summary_table_group_means_witness :
    ((summary_df wT2).rows.filter
      (fun row => decide (getCell row "Sex" = some (Val.str "male")))).length = 1 ∧
    getCell wr2 "Mean Income" =
      round2Cell (colMean (sex_group wT2 (Val.str "male")) "income") ∧
    getCell wr2 "Mean Job Prestige" =
      round2Cell (colMean (sex_group wT2 (Val.str "male")) "job_prestige") ∧
    getCell wr2 "Mean Socioeconomic Index" =
      round2Cell (colMean (sex_group wT2 (Val.str "male")) "socioeconomic_index") ∧
    getCell wr2 "Mean Education (Years)" =
      round2Cell (colMean (sex_group wT2 (Val.str "male")) "education") :=
  summary_table_group_means wT2 (Val.str "male") wr2
    (by decide) (by decide) (by decide)

/-- A label produced by cut_val is one of the given labels. -/
lemma cut_val_mem (es : List ℚ) : ∀ (ls : List String) (v : ℚ) (l : String),
    cut_val es ls v = some l → l ∈ ls := by
  induction es with
  | nil => intro ls v l h; simp [cut_val] at h
  | cons e1 rest ih =>
      intro ls v l h
      cases rest with
      | nil => simp [cut_val] at h
      | cons e2 es2 =>
          cases ls with
          | nil => simp [cut_val] at h
          | cons l0 ls0 =>
              simp only [cut_val] at h
              by_cases hcond : e1 < v ∧ v ≤ e2
              · rw [if_pos hcond] at h
                obtain rfl : l0 = l := Option.some.inj h
                exact List.mem_cons_self _ _
              · rw [if_neg hcond] at h
                exact List.mem_cons_of_mem _ (ih ls0 v l h)

/-- C6: exactly five static figures are computed at startup — the metrics
table of means by sex, the scatter plot of income against job prestige
coloured by sex, the two box plots of income and of job prestige by sex,
and the box plot of income by sex faceted by the prestige_category column
— they are the figures shown by the layout's static graphs, and the facet
column takes one of six job-prestige categories (or NaN) on every row. -/
theorem five_static_figures (g : DFrame) (r : Row)
    (hr : r ∈ (facet_data g).rows) :
    (static_figures g).length = 5 ∧
    static_figures g =
      [Figure.table (summary_df g),
       Figure.scatter (scatter_data g) "job_prestige" "income" "sex",
       Figure.box (box_data g) "sex" "income" "sex" none,
       Figure.box (box_data g) "sex" "job_prestige" "sex" none,
       Figure.box (facet_data g) "sex" "income" "sex" (some "prestige_category")] ∧
    static_graph_figs (app_layout g) = static_figures g ∧
    cut6_labels.length = 6 ∧
    getCell r "prestige_category" ∈
      (none :: cut6_labels.map (fun l => some (Val.str l))) := by
  refine ⟨rfl, rfl, rfl, rfl, ?_⟩
  have key : ∀ (mn mx : ℚ) (rr : Row),
      getCell (("prestige_category", cut6Cell mn mx (getCell rr "job_prestige")) :: rr)
        "prestige_category" ∈ (none :: cut6_labels.map (fun l => some (Val.str l))) := by
    intro mn mx rr
    have hg : getCell (("prestige_category",
        cut6Cell mn mx (getCell rr "job_prestige")) :: rr) "prestige_category" =
        cut6Cell mn mx (getCell rr "job_prestige") := rfl
    rw [hg]
    cases hc : getCell rr "job_prestige" with
    | none => exact List.mem_cons_self _ _
    | some v =>
        cases v with
        | str t => exact List.mem_cons_self _ _
        | num q =>
            simp only [cut6Cell]
            cases hcv : cut_val (cut6_edges mn mx) cut6_labels q with
            | none => exact List.mem_cons_self _ _
            | some l =>
                have hl := cut_val_mem _ _ _ _ hcv
                exact List.mem_cons_of_mem _ (List.mem_map_of_mem _ hl)
  simp only [facet_data] at hr
  rcases hmn : minQ? (colNums (selectP g ["income", "sex", "job_prestige"]).rows
      "job_prestige") with _ | mn
  · rcases hmx : maxQ? (colNums (selectP g ["income", "sex", "job_prestige"]).rows
        "job_prestige") with _ | mx
    · rw [hmn, hmx] at hr
      exact absurd hr (List.not_mem_nil r)
    · rw [hmn, hmx] at hr
      exact absurd hr (List.not_mem_nil r)
  · rcases hmx : maxQ? (colNums (selectP g ["income", "sex", "job_prestige"]).rows
        "job_prestige") with _ | mx
    · rw [hmn, hmx] at hr
      exact absurd hr (List.not_mem_nil r)
    · rw [hmn, hmx] at hr
      simp only [dropna_subset] at hr
      obtain ⟨hmem, _⟩ := List.mem_filter.mp hr
      obtain ⟨rr, _, rfl⟩ := List.mem_map.mp hmem
      exact key mn mx rr

/-- A two-row table exercising the faceted box plot. -/
def wT3 : DFrame :=
  ⟨["income", "sex", "job_prestige"],
   [[("income", some (.num 10)), ("sex", some (.str "male")),
     ("job_prestige", some (.num 30))],
    [("income", some (.num 20)), ("sex", some (.str "female")),
     ("job_prestige", some (.num 60))]]⟩

/-- The first facet row of wT3 (job prestige 30 lands in the first of the
six categories). -/
def wr3 : Row :=
  [("prestige_category", some (Val.str "q1")), ("income", some (Val.num 10)),
   ("sex", some (Val.str "male")), ("job_prestige", some (Val.num 30))]

theorem five_static_figures_witness :
    (static_figures wT3).length = 5 ∧
    static_figures wT3 =
      [Figure.table (summary_df wT3),
       Figure.scatter (scatter_data wT3) "job_prestige" "income" "sex",
       Figure.box (box_data wT3) "sex" "income" "sex" none,
       Figure.box (box_data wT3) "sex" "job_prestige" "sex" none,
       Figure.box (facet_data wT3) "sex" "income" "sex" (some "prestige_category")] ∧
    static_graph_figs (app_layout wT3) = static_figures wT3 ∧
    cut6_labels.length = 6 ∧
    getCell wr3 "prestige_category" ∈
      (none :: cut6_labels.map (fun l => some (Val.str l))) :=
  five_static_figures wT3 wr3 (by
    norm_num +decide [facet_data, selectP, colNums, minQ?, maxQ?, cut6Cell,
      cut6_edges, cut6_labels, cut_val, dropna_subset, getCell, wT3, wr3,
      List.filter, List.filterMap])

/-- C8: cleaning selects exactly the 17 listed columns and re-labels them
per the rename mapping, leaves id/sex/region/age names unchanged, replaces
the age label '89 or older' by '89' and converts age to float, and every
listed NA marker reads as a missing value. -/
theorem clean_selects_and_relabels (header : List String) (grid : List (List String))
    (s : String) (r : Row)
    (h1 : ∀ c ∈ mycols, c ∈ header)
    (h2 : ∀ rr ∈ (read_csv header grid).rows,
      isOkE (astypeFloatCell (replace89 (getCell rr "age"))) = true)
    (hs : s ∈ na_values) :
    cleanE (read_csv header grid) =
      .ok ⟨cleaned_cols, (read_csv header grid).rows.map clean_row⟩ ∧
    cleaned_cols.length = 17 ∧
    read_cell s = none ∧
    getCell (clean_row r) "weight" = getCell r "wtss" ∧
    getCell (clean_row r) "education" = getCell r "educ" ∧
    getCell (clean_row r) "income" = getCell r "coninc" ∧
    getCell (clean_row r) "job_prestige" = getCell r "prestg10" ∧
    getCell (clean_row r) "mother_job_prestige" = getCell r "mapres10" ∧
    getCell (clean_row r) "father_job_prestige" = getCell r "papres10" ∧
    getCell (clean_row r) "socioeconomic_index" = getCell r "sei10" ∧
    getCell (clean_row r) "relationship" = getCell r "fechld" ∧
    getCell (clean_row r) "male_breadwinner" = getCell r "fefam" ∧
    getCell (clean_row r) "men_bettersuited" = getCell r "fepol" ∧
    getCell (clean_row r) "child_suffer" = getCell r "fepresch" ∧
    getCell (clean_row r) "men_overwork" = getCell r "meovrwrk" ∧
    getCell (clean_row r) "id" = getCell r "id" ∧
    getCell (clean_row r) "sex" = getCell r "sex" ∧
    getCell (clean_row r) "region" = getCell r "region" ∧
    getCell (clean_row r) "age" = age_conv (replace89 (getCell r "age")) ∧
    age_conv (replace89 (some (Val.str "89 or older"))) = some (Val.num 89) := by
  refine ⟨cleanE_eq _ h1 h2, rfl, ?_, rfl, rfl, rfl, rfl, rfl, rfl, rfl, rfl,
    rfl, rfl, rfl, rfl, rfl, rfl, rfl, rfl, ?_⟩
  · rw [read_cell, if_pos hs]
  · decide

/-- A raw CSV exercising the cleaning pipeline: the header carries the 17
selected source columns plus one discarded extra column. -/
def wHeader : List String :=
  ["id", "wtss", "sex", "educ", "region", "age", "coninc", "prestg10",
   "mapres10", "papres10", "sei10", "satjob", "fechld", "fefam", "fepol",
   "fepresch", "meovrwrk", "ballot"]

/-- One raw CSV record (the age field carries the replaced label). -/
def wGrid : List (List String) :=
  [["1", "2", "male", "16", "south", "89 or older", "50000", "60", "40",
    "45", "70", "IAP", "agree", "disagree", "DK", "agree", "NOT SURE", "2"]]

/-- The raw row read from wHeader/wGrid. -/
def wRawRow : Row := (read_csv wHeader wGrid).rows.head!

theorem clean_selects_and_relabels_witness :
    cleanE (read_csv wHeader wGrid) =
      .ok ⟨cleaned_cols, (read_csv wHeader wGrid).rows.map clean_row⟩ ∧
    cleaned_cols.length = 17 ∧
    read_cell "IAP" = none ∧
    getCell (clean_row wRawRow) "weight" = getCell wRawRow "wtss" ∧
    getCell (clean_row wRawRow) "education" = getCell wRawRow "educ" ∧
    getCell (clean_row wRawRow) "income" = getCell wRawRow "coninc" ∧
    getCell (clean_row wRawRow) "job_prestige" = getCell wRawRow "prestg10" ∧
    getCell (clean_row wRawRow) "mother_job_prestige" = getCell wRawRow "mapres10" ∧
    getCell (clean_row wRawRow) "father_job_prestige" = getCell wRawRow "papres10" ∧
    getCell (clean_row wRawRow) "socioeconomic_index" = getCell wRawRow "sei10" ∧
    getCell (clean_row wRawRow) "relationship" = getCell wRawRow "fechld" ∧
    getCell (clean_row wRawRow) "male_breadwinner" = getCell wRawRow "fefam" ∧
    getCell (clean_row wRawRow) "men_bettersuited" = getCell wRawRow "fepol" ∧
    getCell (clean_row wRawRow) "child_suffer" = getCell wRawRow "fepresch" ∧
    getCell (clean_row wRawRow) "men_overwork" = getCell wRawRow "meovrwrk" ∧
    getCell (clean_row wRawRow) "id" = getCell wRawRow "id" ∧
    getCell (clean_row wRawRow) "sex" = getCell wRawRow "sex" ∧
    getCell (clean_row wRawRow) "region" = getCell wRawRow "region" ∧
    getCell (clean_row wRawRow) "age" = age_conv (replace89 (getCell wRawRow "age")) ∧
    age_conv (replace89 (some (Val.str "89 or older"))) = some (Val.num 89) :=
  clean_selects_and_relabels wHeader wGrid "IAP" wRawRow
    (by decide) (by decide) (by decide)

/-- For a frame with the cleaned columns, every column referenced by
update_graph on dropdown values exists. -/
lemma referenced_cols_exist (G : DFrame) (hGc : G.cols = cleaned_cols)
    (x c : String) (hx : x ∈ xaxis_options) (hc : c ∈ color_options) :
    (c = "education" → "education" ∈ G.cols) ∧
    x ∈ (bin_frame G c).cols ∧
    color_col_plot c ∈ (bin_frame G c).cols := by
  have hxc : x ∈ cleaned_cols := by fin_cases hx <;> decide
  have hedu : c = "education" → "education" ∈ G.cols := by
    intro _; rw [hGc]; decide
  refine ⟨hedu, ?_, ?_⟩
  · rw [bin_frame]
    by_cases hce : c = "education"
    · rw [if_pos hce]
      exact List.mem_append_left _ (hGc ▸ hxc)
    · rw [if_neg hce]
      exact hGc ▸ hxc
  · by_cases hce : c = "education"
    · rw [color_col_plot, if_pos hce, bin_frame, if_pos hce]
      exact List.mem_append_right _ (List.mem_cons_self _ _)
    · rw [color_col_plot, if_neg hce, bin_frame, if_neg hce, hGc]
      fin_cases hc
      · decide
      · decide
      · exact absurd rfl hce

/-- C9: for every pair offered by the dropdowns, update_graph on the
cleaned table returns a figure without raising: every referenced column
exists in the cleaned table, and the education binning branch (grouping by
education_binned) is taken exactly when the colour value is education. -/
theorem update_graph_total_on_options (header : List String)
    (grid : List (List String)) (x c : String)
    (h1 : ∀ cc ∈ mycols, cc ∈ header)
    (h2 : ∀ rr ∈ (read_csv header grid).rows,
      isOkE (astypeFloatCell (replace89 (getCell rr "age"))) = true)
    (hx : x ∈ xaxis_options) (hc : c ∈ color_options) :
    cleanE (read_csv header grid) =
      .ok ⟨cleaned_cols, (read_csv header grid).rows.map clean_row⟩ ∧
    isOkE (update_graph ⟨cleaned_cols, (read_csv header grid).rows.map clean_row⟩ x c)
      = true ∧
    x ∈ cleaned_cols ∧
    color_col_plot c ∈
      (bin_frame ⟨cleaned_cols, (read_csv header grid).rows.map clean_row⟩ c).cols ∧
    (color_col_plot c = "education_binned" ↔ c = "education") := by
  obtain ⟨hedu, hxm, hcpm⟩ := referenced_cols_exist
    ⟨cleaned_cols, (read_csv header grid).rows.map clean_row⟩ rfl x c hx hc
  refine ⟨cleanE_eq _ h1 h2, ?_, ?_, hcpm, ?_⟩
  · rw [update_graph_eq _ x c hedu hxm hcpm]
    rfl
  · fin_cases hx <;> decide
  · constructor
    · intro hcb
      by_contra hce
      rw [color_col_plot, if_neg hce] at hcb
      exact absurd (hcb ▸ hc) (by decide)
    · intro hce
      rw [color_col_plot, if_pos hce]

theorem update_graph_total_on_options_witness :
    cleanE (read_csv wHeader wGrid) =
      .ok ⟨cleaned_cols, (read_csv wHeader wGrid).rows.map clean_row⟩ ∧
    isOkE (update_graph ⟨cleaned_cols, (read_csv wHeader wGrid).rows.map clean_row⟩
      "male_breadwinner" "education") = true ∧
    "male_breadwinner" ∈ cleaned_cols ∧
    color_col_plot "education" ∈
      (bin_frame ⟨cleaned_cols, (read_csv wHeader wGrid).rows.map clean_row⟩
        "education").cols ∧
    (color_col_plot "education" = "education_binned" ↔ "education" = "education") :=
  update_graph_total_on_options wHeader wGrid "male_breadwinner" "education"
    (by decide) (by decide) (by decide) (by decide)

/-- The education cut as a chain of right-closed interval tests. -/
lemma education_cut_eq (u : ℚ) :
    cut_val education_bins education_labels u =
      (if 0 < u ∧ u ≤ 8 then some "<9 years"
       else if 8 < u ∧ u ≤ 12 then some "9-12 years"
       else if 12 < u ∧ u ≤ 16 then some "13-16 years"
       else if 16 < u ∧ u ≤ 25 then some ">16 years"
       else none) := by
  simp only [education_bins, education_labels, cut_val]

/-- C10: with the colour value education, binning uses the right-closed
bins (0,8], (8,12], (12,16], (16,25]; a respondent whose education is
exactly 0 or greater than 25 gets a missing bin and their row is excluded
from the dropna-filtered frame behind the grouped counts, whatever their
survey-question answer. -/
theorem education_binning_right_closed (g : DFrame) (x : String) (r : Row)
    (v w : ℚ) (hr : r ∈ g.rows)
    (hw : getCell r "education" = some (.num 0) ∨
      (getCell r "education" = some (.num w) ∧ 25 < w)) :
    (cut_val education_bins education_labels v = some "<9 years" ↔
      0 < v ∧ v ≤ 8) ∧
    (cut_val education_bins education_labels v = some "9-12 years" ↔
      8 < v ∧ v ≤ 12) ∧
    (cut_val education_bins education_labels v = some "13-16 years" ↔
      12 < v ∧ v ≤ 16) ∧
    (cut_val education_bins education_labels v = some ">16 years" ↔
      16 < v ∧ v ≤ 25) ∧
    (cut_val education_bins education_labels v = none ↔ v ≤ 0 ∨ 25 < v) ∧
    cutEduCell (getCell r "education") = none ∧
    bin_education_row r ∉ df_plot g x "education" := by
  have hnone : cutEduCell (getCell r "education") = none := by
    rcases hw with hw0 | ⟨hww, hw25⟩
    · rw [hw0]
      simp only [cutEduCell, education_cut_eq]
      norm_num
    · rw [hww]
      simp only [cutEduCell, education_cut_eq]
      rw [if_neg (by rintro ⟨-, hle⟩; linarith),
        if_neg (by rintro ⟨-, hle⟩; linarith),
        if_neg (by rintro ⟨-, hle⟩; linarith),
        if_neg (by rintro ⟨-, hle⟩; linarith)]
      rfl
  refine ⟨?_, ?_, ?_, ?_, ?_, hnone, ?_⟩
  · rw [education_cut_eq]
    split_ifs with h1 h2 h3 h4
    · exact iff_of_true rfl h1
    · exact iff_of_false (by intro he; exact absurd (Option.some.inj he) (by decide)) h1
    · exact iff_of_false (by intro he; exact absurd (Option.some.inj he) (by decide)) h1
    · exact iff_of_false (by intro he; exact absurd (Option.some.inj he) (by decide)) h1
    · exact iff_of_false (by simp) h1
  · rw [education_cut_eq]
    split_ifs with h1 h2 h3 h4
    · exact iff_of_false (by intro he; exact absurd (Option.some.inj he) (by decide))
        (by rintro ⟨ha, -⟩; linarith [h1.2])
    · exact iff_of_true rfl h2
    · exact iff_of_false (by intro he; exact absurd (Option.some.inj he) (by decide)) h2
    · exact iff_of_false (by intro he; exact absurd (Option.some.inj he) (by decide)) h2
    · exact iff_of_false (by simp) h2
  · rw [education_cut_eq]
    split_ifs with h1 h2 h3 h4
    · exact iff_of_false (by intro he; exact absurd (Option.some.inj he) (by decide))
        (by rintro ⟨ha, -⟩; linarith [h1.2])
    · exact iff_of_false (by intro he; exact absurd (Option.some.inj he) (by decide))
        (by rintro ⟨ha, -⟩; linarith [h2.2])
    · exact iff_of_true rfl h3
    · exact iff_of_false (by intro he; exact absurd (Option.some.inj he) (by decide)) h3
    · exact iff_of_false (by simp) h3
  · rw [education_cut_eq]
    split_ifs with h1 h2 h3 h4
    · exact iff_of_false (by intro he; exact absurd (Option.some.inj he) (by decide))
        (by rintro ⟨ha, -⟩; linarith [h1.2])
    · exact iff_of_false (by intro he; exact absurd (Option.some.inj he) (by decide))
        (by rintro ⟨ha, -⟩; linarith [h2.2])
    · exact iff_of_false (by intro he; exact absurd (Option.some.inj he) (by decide))
        (by rintro ⟨ha, -⟩; linarith [h3.2])
    · exact iff_of_true rfl h4
    · exact iff_of_false (by simp) h4
  · rw [education_cut_eq]
    split_ifs with h1 h2 h3 h4
    · exact iff_of_false (by simp)
        (by rintro (hv | hv) <;> linarith [h1.1, h1.2])
    · exact iff_of_false (by simp)
        (by rintro (hv | hv) <;> linarith [h2.1, h2.2])
    · exact iff_of_false (by simp)
        (by rintro (hv | hv) <;> linarith [h3.1, h3.2])
    · exact iff_of_false (by simp)
        (by rintro (hv | hv) <;> linarith [h4.1, h4.2])
    · refine iff_of_true rfl ?_
      rcases le_or_lt v 0 with hv | hv
      · exact Or.inl hv
      · have t1 : ¬ v ≤ 8 := fun hle => h1 ⟨hv, hle⟩
        have t2 : ¬ v ≤ 12 := fun hle => h2 ⟨not_le.mp t1, hle⟩
        have t3 : ¬ v ≤ 16 := fun hle => h3 ⟨not_le.mp t2, hle⟩
        have t4 : ¬ v ≤ 25 := fun hle => h4 ⟨not_le.mp t3, hle⟩
        exact Or.inr (not_le.mp t4)
  · intro hmem
    simp only [df_plot, dropna_subset] at hmem
    obtain ⟨-, hpred⟩ := List.mem_filter.mp hmem
    have hgetb : getCell (bin_education_row r) "education_binned" =
        cutEduCell (getCell r "education") := rfl
    simp only [List.all_cons, List.all_nil, Bool.and_true, Bool.and_eq_true] at hpred
    have h2' := hpred.2
    rw [show color_col_plot "education" = "education_binned" from rfl] at h2'
    rw [hgetb, hnone] at h2'
    simp at h2'

/-- A one-row table whose only respondent has exactly 0 years of
education but answered the survey question. -/
def wT4 : DFrame :=
  ⟨["male_breadwinner", "education"],
   [[("male_breadwinner", some (.str "agree")), ("education", some (.num 0))]]⟩

/-- The row of wT4. -/
def wr4 : Row :=
  [("male_breadwinner", some (Val.str "agree")), ("education", some (Val.num 0))]

theorem education_binning_right_closed_witness :
    (cut_val education_bins education_labels 5 = some "<9 years" ↔
      (0 : ℚ) < 5 ∧ (5 : ℚ) ≤ 8) ∧
    (cut_val education_bins education_labels 5 = some "9-12 years" ↔
      (8 : ℚ) < 5 ∧ (5 : ℚ) ≤ 12) ∧
    (cut_val education_bins education_labels 5 = some "13-16 years" ↔
      (12 : ℚ) < 5 ∧ (5 : ℚ) ≤ 16) ∧
    (cut_val education_bins education_labels 5 = some ">16 years" ↔
      (16 : ℚ) < 5 ∧ (5 : ℚ) ≤ 25) ∧
    (cut_val education_bins education_labels 5 = none ↔
      (5 : ℚ) ≤ 0 ∨ (25 : ℚ) < 5) ∧
    cutEduCell (getCell wr4 "education") = none ∧
    bin_education_row wr4 ∉ df_plot wT4 "male_breadwinner" "education" :=
  education_binning_right_closed wT4 "male_breadwinner" wr4 5 26
    (by decide) (Or.inl (by decide))
